import Mathlib

/-!
Shallow embedding of the badge-derivation and student-badge-lookup logic of
`src/components/BadgesDashboard/BadgesDashboard.tsx` (components
`BadgesDashboard.loadBadges` and `StudentBadgesTest.handleSearch`).

Network fetches are modelled as explicit `FetchResult` arguments; the
pseudo-random earned timestamp of the source is modelled as an explicit
parameter `ts`.  JavaScript objects keyed by skill name are modelled as
association lists; optional / possibly-absent fields are `Option`s.
-/

/-- Result of a backend fetch: success with a payload, or a failure possibly
carrying a human-readable message (`error.response?.data?.message`). -/
inductive FetchResult (α : Type) where
  | ok (val : α)
  | err (msg : Option String)
deriving DecidableEq

/-- Badge level, the TS union `'beginner' | 'intermediate' | 'advanced'`. -/
inductive BadgeLevel where
  | beginner
  | intermediate
  | advanced
deriving DecidableEq

/-- Per-(student, skill) analytics entry; the `score` field may be absent. -/
structure SkillData where
  score : Option Int
deriving DecidableEq

/-- A student record of the course analytics response; `skillBreakdown` is a
JS object keyed by skill name, modelled as an association list, and may be
absent. -/
structure Student where
  id : String
  name : String
  skillBreakdown : Option (List (String × SkillData))
deriving DecidableEq

/-- The course student-analytics payload; the `students` field may be absent. -/
structure Analytics where
  students : Option (List Student)
deriving DecidableEq

/-- One skill-matrix record; its `skills` field may be absent or not an
array, modelled as `Option`. -/
structure SkillMatrix where
  skills : Option (List String)
deriving DecidableEq

/-- TS interface `StudentBadgeStatus`. -/
structure StudentBadgeStatus where
  id : String
  name : String
  earned : Bool
  progress : Int
  earnedAt : Option String
  skillScore : Option Int
deriving DecidableEq

/-- TS interface `BadgeData`. -/
structure BadgeData where
  id : String
  name : String
  description : String
  skill_name : String
  level : BadgeLevel
  badge_type : Option String
  studentsEarned : List StudentBadgeStatus
  studentsNotEarned : List StudentBadgeStatus
deriving DecidableEq

/-- `allSkills`: lines 55-60, pushing every matrix record's skills. -/
def collectSkills (ms : List SkillMatrix) : List String :=
  ms.foldl (fun acc m => acc ++ m.skills.getD []) []

/-- One insertion step of a JS `Set` (insertion order, skip if present). -/
def insertUniq (acc : List String) (x : String) : List String :=
  if x ∈ acc then acc else acc ++ [x]

/-- `uniqueSkills = Array.from(new Set(allSkills))`, line 63: iterate the
list into an insertion-ordered set. -/
def jsSetDedup (l : List String) : List String :=
  l.foldl insertUniq []

/-- First-seen-order deduplication as the spec describes it: emit an element
the first time it is seen, drop every later occurrence. -/
def firstSeenDedupAux (seen : List String) : List String → List String
  | [] => []
  | x :: xs =>
    if x ∈ seen then firstSeenDedupAux seen xs
    else x :: firstSeenDedupAux (x :: seen) xs

/-- First-seen-order deduplication, starting with nothing seen. -/
def firstSeenDedup (l : List String) : List String :=
  firstSeenDedupAux [] l

/-- Does the character list `s` start with `pat`? -/
def charsStartWith : List Char → List Char → Bool
  | [], _ => true
  | _ :: _, [] => false
  | p :: ps, c :: cs => p == c && charsStartWith ps cs

/-- Does the character list `s` contain `pat` as a contiguous run? -/
def charsContain (s pat : List Char) : Bool :=
  match s with
  | [] => pat.isEmpty
  | _ :: cs => charsStartWith pat s || charsContain cs pat

/-- JS `String.prototype.includes`: substring containment. -/
def strIncludes (s pat : String) : Bool :=
  charsContain s.data pat.data

/-- JS `String.prototype.toLowerCase`, character-wise lowering. -/
def strToLower (s : String) : String :=
  ⟨s.data.map Char.toLower⟩

/-- JS `String.prototype.trim`: strip leading and trailing whitespace. -/
def strTrim (s : String) : String :=
  ⟨((s.data.dropWhile Char.isWhitespace).reverse.dropWhile
      Char.isWhitespace).reverse⟩

/-- The beginner condition of line 94 (on the lowercased name). -/
def beginnerHit (skillLower : String) : Bool :=
  strIncludes skillLower "basic" || strIncludes skillLower "intro" ||
    strIncludes skillLower "fundamental"

/-- The advanced condition of line 96 (on the lowercased name). -/
def advancedHit (skillLower : String) : Bool :=
  strIncludes skillLower "advanced" || strIncludes skillLower "expert" ||
    strIncludes skillLower "master"

/-- Badge-level classification, lines 91-98: default `intermediate`,
beginner substrings first, then advanced substrings. -/
def classifyLevel (skillName : String) : BadgeLevel :=
  let skillLower := strToLower skillName
  if beginnerHit skillLower then .beginner
  else if advancedHit skillLower then .advanced
  else .intermediate

/-- `student.skillBreakdown && student.skillBreakdown[skillName]`:
look the skill up in the breakdown, if the breakdown exists. -/
def lookupSkill (sb : Option (List (String × SkillData))) (skill : String) :
    Option SkillData :=
  match sb with
  | none => none
  | some l => l.lookup skill

/-- Lines 107-134: build the `StudentBadgeStatus` for one student and one
skill.  `ts` stands for the timestamp string the source fabricates. -/
def mkStudentStatus (ts : String) (skillName : String) (student : Student) :
    StudentBadgeStatus :=
  match lookupSkill student.skillBreakdown skillName with
  | some skillData =>
    let skillScore := skillData.score.getD 0
    let hasEarned : Bool := decide (skillScore ≥ 80)
    { id := student.id
      name := student.name
      earned := hasEarned
      progress := skillScore
      skillScore := some skillScore
      earnedAt := if hasEarned then some ts else none }
  | none =>
    { id := student.id
      name := student.name
      earned := false
      progress := 0
      earnedAt := none
      skillScore := some 0 }

/-- Line 104: the students list, guarded by
`studentAnalytics && studentAnalytics.students`. -/
def analyticsStudents (oa : Option Analytics) : List Student :=
  match oa with
  | some a => a.students.getD []
  | none => []

/-- Lines 101-136: push each student's status into `studentsEarned` or
`studentsNotEarned` according to its `earned` flag. -/
def processStudents (ts skillName : String) (students : List Student) :
    List StudentBadgeStatus × List StudentBadgeStatus :=
  (students.map (mkStudentStatus ts skillName)).partition (·.earned)

/-- Lines 89-148: the badge built for `skillName` at position `index` on the
normal (analytics-available) path. -/
def mkSkillBadge (ts : String) (oa : Option Analytics) (index : Nat)
    (skillName : String) : BadgeData :=
  let level := classifyLevel skillName
  let parts := processStudents ts skillName (analyticsStudents oa)
  { id := "badge-" ++ toString index
    name := skillName ++ " Badge"
    description := "Awarded for demonstrating proficiency in " ++ skillName
    skill_name := skillName
    level := level
    badge_type := some "skill"
    studentsEarned := parts.1
    studentsNotEarned := parts.2 }

/-- Lines 73-82: the badge built for `skillName` at position `index` when the
analytics fetch failed; note the hardcoded `intermediate` level. -/
def emptyBadge (index : Nat) (skillName : String) : BadgeData :=
  { id := "badge-" ++ toString index
    name := skillName ++ " Badge"
    description := "Awarded for demonstrating proficiency in " ++ skillName
    skill_name := skillName
    level := .intermediate
    badge_type := some "skill"
    studentsEarned := []
    studentsNotEarned := [] }

/-- Outcome of one `loadBadges` run: the badge list that gets displayed,
whether the fatal-error toast of line 155 fired, and whether the analytics
fetch of line 68 was attempted at all. -/
structure LoadOutcome where
  badges : List BadgeData
  errorToast : Bool
  analyticsAttempted : Bool
deriving DecidableEq

/-- `loadBadges`, lines 39-160.  `mfr` is the skill-matrix fetch (its payload
`response.data` may be null/absent, hence the `Option`), `afr` the analytics
fetch. -/
def loadBadges (ts : String) (mfr : FetchResult (Option (List SkillMatrix)))
    (afr : FetchResult (Option Analytics)) : LoadOutcome :=
  match mfr with
  | .err _ => { badges := [], errorToast := true, analyticsAttempted := false }
  | .ok skillMatrices =>
    match skillMatrices with
    | none =>
      { badges := [], errorToast := false, analyticsAttempted := false }
    | some [] =>
      { badges := [], errorToast := false, analyticsAttempted := false }
    | some (m :: rest) =>
      let uniqueSkills := jsSetDedup (collectSkills (m :: rest))
      match afr with
      | .err _ =>
        { badges := uniqueSkills.enum.map (fun p => emptyBadge p.1 p.2)
          errorToast := false
          analyticsAttempted := true }
      | .ok oa =>
        { badges := uniqueSkills.enum.map (fun p => mkSkillBadge ts oa p.1 p.2)
          errorToast := false
          analyticsAttempted := true }

/-- The score the derivation attributes to a student for a skill: the entry's
`score` if present, `0` when the score field or the whole entry is missing. -/
def scoreOf (student : Student) (skill : String) : Int :=
  match lookupSkill student.skillBreakdown skill with
  | some d => d.score.getD 0
  | none => 0

/-- TS interface `EarnedBadge` of the `StudentBadgesTest` component. -/
structure EarnedBadge where
  badge_id : String
  badge_name : String
  skill_name : String
  badge_level : String
  progress_percentage : Int
  earned_at : String
  course_id : String
  course_name : String
deriving DecidableEq

/-- Payload of `badgeAPI.getStudentEarnedBadges`. -/
structure BadgeResponse where
  badges : List EarnedBadge
  total_badges : Nat
deriving DecidableEq

/-- The `StudentBadgesTest` view state touched by `handleSearch`. -/
structure SearchState where
  studentId : String
  badges : List EarnedBadge
  totalBadges : Nat
  searched : Bool
deriving DecidableEq

/-- Observable effects of one `handleSearch` run. -/
structure SearchEffects where
  networkCalled : Bool
  toastError : Option String
  toastSuccess : Option String
deriving DecidableEq

/-- `handleSearch`, lines 446-468 of the second component: reject a blank id
before any network call, otherwise set the state from the backend response,
or clear it and toast the backend's message on failure. -/
def handleSearch (st : SearchState) (backend : FetchResult BadgeResponse) :
    SearchState × SearchEffects :=
  if strTrim st.studentId = "" then
    (st, { networkCalled := false
           toastError := some "Please enter a student ID"
           toastSuccess := none })
  else
    match backend with
    | .ok response =>
      ({ st with badges := response.badges
                 totalBadges := response.total_badges
                 searched := true },
       { networkCalled := true
         toastError := none
         toastSuccess :=
           some ("Found " ++ toString response.total_badges ++ " badges") })
    | .err msg =>
      ({ st with badges := [], totalBadges := 0, searched := true },
       { networkCalled := true
         toastError := some (msg.getD "Failed to fetch badges")
         toastSuccess := none })

/-! ### Concrete fixtures used by the evaluation witnesses -/

/-- Fixture: a skill-matrix record with two skills. -/
def wMatrix : SkillMatrix := ⟨some ["Basic Python", "Data Master"]⟩

/-- Fixture: a student whose "Basic Python" score is 90. -/
def wAlice : Student := ⟨"s1", "Alice", some [("Basic Python", ⟨some 90⟩)]⟩

/-- Fixture: a student with a 50 score and an entry with no score field. -/
def wBob : Student :=
  ⟨"s2", "Bob", some [("Basic Python", ⟨some 50⟩), ("Data Master", ⟨none⟩)]⟩

/-- Fixture: a student with no skill breakdown at all. -/
def wCarol : Student := ⟨"s3", "Carol", none⟩

/-- Fixture: an analytics payload with the three students above. -/
def wAnalytics : Option Analytics := some ⟨some [wAlice, wBob, wCarol]⟩

/-- Fixture: the first badge derived from `wMatrix` and `wAnalytics`. -/
def wBadge : BadgeData := mkSkillBadge "T" wAnalytics 0 "Basic Python"

/-! ### Helper lemmas about the deduplication of line 63 -/

theorem mem_firstSeenDedupAux (a : String) :
    ∀ (l seen : List String),
      a ∈ firstSeenDedupAux seen l ↔ a ∈ l ∧ a ∉ seen := by
  intro l
  induction l with
  | nil => intro seen; simp [firstSeenDedupAux]
  | cons x xs ih =>
    intro seen
    by_cases hx : x ∈ seen
    · rw [firstSeenDedupAux, if_pos hx, ih seen, List.mem_cons]
      constructor
      · rintro ⟨hm, hns⟩
        exact ⟨Or.inr hm, hns⟩
      · rintro ⟨hm, hns⟩
        rcases hm with rfl | hm
        · exact absurd hx hns
        · exact ⟨hm, hns⟩
    · rw [firstSeenDedupAux, if_neg hx, List.mem_cons, ih (x :: seen),
        List.mem_cons, List.mem_cons]
      constructor
      · rintro (rfl | ⟨hm, hns⟩)
        · exact ⟨Or.inl rfl, hx⟩
        · exact ⟨Or.inr hm, fun hs => hns (Or.inr hs)⟩
      · rintro ⟨hm, hns⟩
        by_cases hax : a = x
        · exact Or.inl hax
        · rcases hm with rfl | hm
          · exact absurd rfl hax
          · exact Or.inr ⟨hm, fun hs => hs.elim hax hns⟩

theorem nodup_firstSeenDedupAux :
    ∀ (l seen : List String), (firstSeenDedupAux seen l).Nodup := by
  intro l
  induction l with
  | nil => intro seen; simp [firstSeenDedupAux]
  | cons x xs ih =>
    intro seen
    by_cases hx : x ∈ seen
    · rw [firstSeenDedupAux, if_pos hx]
      exact ih seen
    · rw [firstSeenDedupAux, if_neg hx]
      refine List.nodup_cons.mpr ⟨fun hmem => ?_, ih _⟩
      exact ((mem_firstSeenDedupAux x xs (x :: seen)).mp hmem).2
        (List.mem_cons_self _ _)

theorem foldl_insertUniq_eq :
    ∀ (l acc seen : List String), (∀ y, y ∈ seen ↔ y ∈ acc) →
      l.foldl insertUniq acc = acc ++ firstSeenDedupAux seen l := by
  intro l
  induction l with
  | nil => intro acc seen _; simp [firstSeenDedupAux]
  | cons x xs ih =>
    intro acc seen h
    by_cases hx : x ∈ acc
    · have hxs : x ∈ seen := (h x).mpr hx
      rw [List.foldl_cons, firstSeenDedupAux, if_pos hxs]
      have : insertUniq acc x = acc := by rw [insertUniq, if_pos hx]
      rw [this]
      exact ih acc seen h
    · have hxs : x ∉ seen := fun hs => hx ((h x).mp hs)
      rw [List.foldl_cons, firstSeenDedupAux, if_neg hxs]
      have hstep : insertUniq acc x = acc ++ [x] := by rw [insertUniq, if_neg hx]
      rw [hstep, ih (acc ++ [x]) (x :: seen) ?_]
      · simp
      · intro y
        rw [List.mem_cons, List.mem_append, List.mem_singleton, h y]
        tauto

theorem jsSetDedup_eq_firstSeenDedup (l : List String) :
    jsSetDedup l = firstSeenDedup l := by
  have h := foldl_insertUniq_eq l [] [] (by simp)
  simpa [jsSetDedup, firstSeenDedup] using h

theorem mem_jsSetDedup {a : String} {l : List String} :
    a ∈ jsSetDedup l ↔ a ∈ l := by
  rw [jsSetDedup_eq_firstSeenDedup]
  simpa [firstSeenDedup] using mem_firstSeenDedupAux a l []

theorem nodup_jsSetDedup (l : List String) : (jsSetDedup l).Nodup := by
  rw [jsSetDedup_eq_firstSeenDedup]
  exact nodup_firstSeenDedupAux l []

theorem length_jsSetDedup (l : List String) :
    (jsSetDedup l).length = l.toFinset.card := by
  have h1 : (jsSetDedup l).toFinset = l.toFinset :=
    List.toFinset.ext fun _ => mem_jsSetDedup
  have h2 : (jsSetDedup l).toFinset.card = (jsSetDedup l).length := by
    rw [← List.toFinset_eq (nodup_jsSetDedup l)]
    rfl
  rw [← h1, h2]

/-! ### Helper lemmas about the per-student processing -/

theorem earned_mkStudentStatus (ts skill : String) (st : Student) :
    (mkStudentStatus ts skill st).earned = decide (80 ≤ scoreOf st skill) := by
  unfold mkStudentStatus scoreOf
  cases lookupSkill st.skillBreakdown skill with
  | some d => rfl
  | none => rfl

theorem studentsEarned_mkSkillBadge (ts : String) (oa : Option Analytics)
    (i : Nat) (s : String) :
    (mkSkillBadge ts oa i s).studentsEarned =
      ((analyticsStudents oa).filter
        (fun st => decide (80 ≤ scoreOf st s))).map (mkStudentStatus ts s) := by
  show (processStudents ts s (analyticsStudents oa)).1 = _
  rw [processStudents, List.partition_eq_filter_filter, List.filter_map]
  refine congrArg _ (List.filter_congr fun st _ => ?_)
  exact earned_mkStudentStatus ts s st

theorem studentsNotEarned_mkSkillBadge (ts : String) (oa : Option Analytics)
    (i : Nat) (s : String) :
    (mkSkillBadge ts oa i s).studentsNotEarned =
      ((analyticsStudents oa).filter
        (fun st => !decide (80 ≤ scoreOf st s))).map (mkStudentStatus ts s) := by
  simp only [mkSkillBadge, processStudents, List.partition_eq_filter_filter,
    List.filter_map]
  refine congrArg _ (List.filter_congr fun st _ => ?_)
  simp only [Function.comp_apply, earned_mkStudentStatus]

/-! ### Helper lemmas about the enumerated badge construction -/

theorem skillNames_of_enumMap (g : Nat → String → BadgeData) (l : List String)
    (hg : ∀ i s, (g i s).skill_name = s) :
    ((l.enum.map fun p => g p.1 p.2).map fun b => b.skill_name) = l := by
  rw [List.map_map]
  have h : ((fun b : BadgeData => b.skill_name) ∘
      fun p : Nat × String => g p.1 p.2) = Prod.snd := by
    funext p
    exact hg p.1 p.2
  rw [h, List.enum_map_snd]

theorem ids_of_enumMap (g : Nat → String → BadgeData) (l : List String)
    (hg : ∀ i s, (g i s).id = "badge-" ++ toString i) :
    ((l.enum.map fun p => g p.1 p.2).map fun b => b.id) =
      (List.range l.length).map fun i => "badge-" ++ toString i := by
  rw [List.map_map]
  have h : ((fun b : BadgeData => b.id) ∘ fun p : Nat × String => g p.1 p.2)
      = ((fun i => "badge-" ++ toString i) ∘ Prod.fst) := by
    funext p
    exact hg p.1 p.2
  rw [h, ← List.map_map, List.enum_map_fst]

/-! ### Claim theorems -/

/-- C2: on both the normal and the analytics-failure path, the number of
derived badges equals the number of distinct skill names collected across
all matrix records. -/
theorem C2_one_badge_per_unique_skill (ts : String) (m : SkillMatrix)
    (rest : List SkillMatrix) (afr : FetchResult (Option Analytics)) :
    (loadBadges ts (.ok (some (m :: rest))) afr).badges.length =
      (collectSkills (m :: rest)).toFinset.card := by
  cases afr with
  | ok oa =>
    simp only [loadBadges]
    rw [List.length_map, List.enum_length, length_jsSetDedup]
  | err e =>
    simp only [loadBadges]
    rw [List.length_map, List.enum_length, length_jsSetDedup]

/-- C4: the beginner check precedes the advanced check, so a skill name
matching both substring families classifies as `beginner`; in particular
"Intro to Advanced Topics" does. -/
theorem C4_beginner_precedes_advanced (skillName : String)
    (hb : beginnerHit (strToLower skillName) = true)
    (ha : advancedHit (strToLower skillName) = true) :
    classifyLevel skillName = .beginner := by
  rw [classifyLevel]
  simp only [hb, if_true]

/-- Witness for C4 at the skill name the spec singles out. -/
theorem C4_beginner_precedes_advanced_witness :
    beginnerHit (strToLower "Intro to Advanced Topics") = true ∧
      advancedHit (strToLower "Intro to Advanced Topics") = true ∧
      classifyLevel "Intro to Advanced Topics" = .beginner :=
  ⟨by decide, by decide,
    C4_beginner_precedes_advanced "Intro to Advanced Topics" (by decide)
      (by decide)⟩

/-- C6: an absent or empty skill-matrix payload yields an empty badge list,
no error toast, and no analytics fetch. -/
theorem C6_empty_matrix_terminal (ts : String)
    (afr : FetchResult (Option Analytics)) :
    loadBadges ts (.ok none) afr =
        { badges := [], errorToast := false, analyticsAttempted := false } ∧
      loadBadges ts (.ok (some [])) afr =
        { badges := [], errorToast := false, analyticsAttempted := false } :=
  ⟨rfl, rfl⟩

/-- C8: a student id that is blank after trimming is rejected before any
network call, with a validation toast and the view state left unchanged. -/
theorem C8_blank_id_no_network (st : SearchState)
    (backend : FetchResult BadgeResponse) (h : strTrim st.studentId = "") :
    handleSearch st backend =
      (st, { networkCalled := false
             toastError := some "Please enter a student ID"
             toastSuccess := none }) := by
  unfold handleSearch
  rw [if_pos h]

/-- Witness for C8 on a whitespace-only student id, with a previously
displayed non-trivial count. -/
theorem C8_blank_id_no_network_witness :
    strTrim "   " = "" ∧
      handleSearch ⟨"   ", [], 7, true⟩ (.ok ⟨[], 0⟩) =
        (⟨"   ", [], 7, true⟩,
         { networkCalled := false
           toastError := some "Please enter a student ID"
           toastSuccess := none }) :=
  ⟨by decide, C8_blank_id_no_network ⟨"   ", [], 7, true⟩ (.ok ⟨[], 0⟩)
    (by decide)⟩

/-- C9: with a non-blank id, a failed lookup clears the list and count and
toasts the backend message (or the generic fallback); a successful lookup
stores the backend's list and count verbatim. -/
theorem C9_lookup_result_handling (st : SearchState)
    (h : strTrim st.studentId ≠ "") :
    (∀ msg, handleSearch st (.err msg) =
        ({ st with badges := [], totalBadges := 0, searched := true },
         { networkCalled := true
           toastError := some (msg.getD "Failed to fetch badges")
           toastSuccess := none })) ∧
      (∀ resp, handleSearch st (.ok resp) =
        ({ st with badges := resp.badges
                   totalBadges := resp.total_badges
                   searched := true },
         { networkCalled := true
           toastError := none
           toastSuccess :=
             some ("Found " ++ toString resp.total_badges ++ " badges") })) := by
  unfold handleSearch
  constructor <;> intro x <;> rw [if_neg h]

/-- Witness for C9: generic fallback message on a message-less failure, and
verbatim pass-through of a response whose count disagrees with its list. -/
theorem C9_lookup_result_handling_witness :
    strTrim "s1" ≠ "" ∧
      handleSearch ⟨"s1", [], 0, false⟩ (.err none) =
        (⟨"s1", [], 0, true⟩,
         { networkCalled := true
           toastError := some "Failed to fetch badges"
           toastSuccess := none }) ∧
      handleSearch ⟨"s1", [], 0, false⟩ (.ok ⟨[], 5⟩) =
        (⟨"s1", [], 5, true⟩,
         { networkCalled := true
           toastError := none
           toastSuccess := some "Found 5 badges" }) :=
  ⟨by decide,
    (C9_lookup_result_handling ⟨"s1", [], 0, false⟩ (by decide)).1 none,
    (C9_lookup_result_handling ⟨"s1", [], 0, false⟩ (by decide)).2 ⟨[], 5⟩⟩

/-! ### Further helper lemmas about single student records -/

theorem skillName_mkSkillBadge (ts : String) (oa : Option Analytics) (i : Nat)
    (s : String) : (mkSkillBadge ts oa i s).skill_name = s := rfl

theorem earnedAt_mkStudentStatus (ts skill : String) (st : Student) :
    (mkStudentStatus ts skill st).earnedAt =
      if (mkStudentStatus ts skill st).earned then some ts else none := by
  unfold mkStudentStatus
  cases lookupSkill st.skillBreakdown skill with
  | some d => rfl
  | none => rfl

theorem progress_mkStudentStatus (ts skill : String) (st : Student) :
    some (mkStudentStatus ts skill st).progress =
      (mkStudentStatus ts skill st).skillScore := by
  unfold mkStudentStatus
  cases lookupSkill st.skillBreakdown skill with
  | some d => rfl
  | none => rfl

/-- C1: on the normal path, each student of the analytics response lands in
exactly one partition of every badge (the two partition lengths add up to the
number of students), the `earned` partition is exactly the students whose
score for the badge's skill is at least 80, and the rest (including students
with no entry, whose score is 0 by `scoreOf`) form `notEarned`. -/
theorem C1_partition_by_score (ts : String) (m : SkillMatrix)
    (rest : List SkillMatrix) (oa : Option Analytics) :
    ∀ b ∈ (loadBadges ts (.ok (some (m :: rest))) (.ok oa)).badges,
      b.studentsEarned.length + b.studentsNotEarned.length =
          (analyticsStudents oa).length ∧
        b.studentsEarned = ((analyticsStudents oa).filter
            (fun st => decide (80 ≤ scoreOf st b.skill_name))).map
              (mkStudentStatus ts b.skill_name) ∧
        b.studentsNotEarned = ((analyticsStudents oa).filter
            (fun st => !decide (80 ≤ scoreOf st b.skill_name))).map
              (mkStudentStatus ts b.skill_name) := by
  intro b hb
  simp only [loadBadges, List.mem_map] at hb
  obtain ⟨p, hp, rfl⟩ := hb
  simp only [skillName_mkSkillBadge]
  refine ⟨?_, studentsEarned_mkSkillBadge ts oa p.1 p.2,
    studentsNotEarned_mkSkillBadge ts oa p.1 p.2⟩
  rw [studentsEarned_mkSkillBadge, studentsNotEarned_mkSkillBadge,
    List.length_map, List.length_map]
  exact (List.length_eq_length_filter_add _).symm

/-- Witness for C1 on a concrete course: Alice scores 90 (earned), Bob 50,
Carol has no breakdown at all. -/
theorem C1_partition_by_score_witness :
    wBadge ∈ (loadBadges "T" (.ok (some [wMatrix])) (.ok wAnalytics)).badges ∧
      (wBadge.studentsEarned.length + wBadge.studentsNotEarned.length =
          (analyticsStudents wAnalytics).length ∧
        wBadge.studentsEarned = ((analyticsStudents wAnalytics).filter
            (fun st => decide (80 ≤ scoreOf st wBadge.skill_name))).map
              (mkStudentStatus "T" wBadge.skill_name) ∧
        wBadge.studentsNotEarned = ((analyticsStudents wAnalytics).filter
            (fun st => !decide (80 ≤ scoreOf st wBadge.skill_name))).map
              (mkStudentStatus "T" wBadge.skill_name)) :=
  ⟨by decide,
    C1_partition_by_score "T" wMatrix [] wAnalytics wBadge (by decide)⟩

/-- C3 counterexample: on the analytics-failure path the badge level is the
hardcoded `intermediate`, even though the substring rule classifies
"Basic Python" as `beginner`. -/
theorem C3_level_rule_counterexample :
    (loadBadges "T" (.ok (some [⟨some ["Basic Python"]⟩])) (.err none)).badges
        = [emptyBadge 0 "Basic Python"] ∧
      (emptyBadge 0 "Basic Python").level = .intermediate ∧
      classifyLevel (emptyBadge 0 "Basic Python").skill_name = .beginner :=
  ⟨by decide, by decide, by decide⟩

/-- C3 amended: on the normal path every badge's level follows the substring
rule of `classifyLevel`; on the analytics-failure path every badge's level is
`intermediate` regardless of the skill name. -/
theorem C3_level_rule_amended (ts : String) (m : SkillMatrix)
    (rest : List SkillMatrix) (oa : Option Analytics) (e : Option String) :
    (∀ b ∈ (loadBadges ts (.ok (some (m :: rest))) (.ok oa)).badges,
        b.level = classifyLevel b.skill_name) ∧
      (∀ b ∈ (loadBadges ts (.ok (some (m :: rest))) (.err e)).badges,
        b.level = .intermediate) := by
  constructor
  · intro b hb
    simp only [loadBadges, List.mem_map] at hb
    obtain ⟨p, hp, rfl⟩ := hb
    rfl
  · intro b hb
    simp only [loadBadges, List.mem_map] at hb
    obtain ⟨p, hp, rfl⟩ := hb
    rfl

/-- Witness for the amended C3 on concrete badges of both paths. -/
theorem C3_level_rule_amended_witness :
    (wBadge ∈ (loadBadges "T" (.ok (some [wMatrix])) (.ok wAnalytics)).badges ∧
        wBadge.level = classifyLevel wBadge.skill_name) ∧
      (emptyBadge 0 "Basic Python" ∈
          (loadBadges "T" (.ok (some [wMatrix])) (.err none)).badges ∧
        (emptyBadge 0 "Basic Python").level = .intermediate) :=
  ⟨⟨by decide,
      (C3_level_rule_amended "T" wMatrix [] wAnalytics none).1 wBadge
        (by decide)⟩,
    ⟨by decide,
      (C3_level_rule_amended "T" wMatrix [] wAnalytics none).2
        (emptyBadge 0 "Basic Python") (by decide)⟩⟩

/-- C5: when the analytics fetch fails after a non-empty skill matrix, no
error toast fires, and there is still one badge per deduplicated skill, each
with both partitions empty. -/
theorem C5_analytics_failure_degrades (ts : String) (m : SkillMatrix)
    (rest : List SkillMatrix) (e : Option String) :
    (loadBadges ts (.ok (some (m :: rest))) (.err e)).errorToast = false ∧
      ((loadBadges ts (.ok (some (m :: rest))) (.err e)).badges.map
          fun b => b.skill_name) = jsSetDedup (collectSkills (m :: rest)) ∧
      ∀ b ∈ (loadBadges ts (.ok (some (m :: rest))) (.err e)).badges,
        b.studentsEarned = [] ∧ b.studentsNotEarned = [] := by
  refine ⟨rfl, ?_, ?_⟩
  · simp only [loadBadges]
    exact skillNames_of_enumMap emptyBadge _ fun i s => rfl
  · intro b hb
    simp only [loadBadges, List.mem_map] at hb
    obtain ⟨p, hp, rfl⟩ := hb
    exact ⟨rfl, rfl⟩

/-- Witness for C5 on a concrete two-skill matrix. -/
theorem C5_analytics_failure_degrades_witness :
    (loadBadges "T" (.ok (some [wMatrix])) (.err none)).errorToast = false ∧
      ((loadBadges "T" (.ok (some [wMatrix])) (.err none)).badges.map
          fun b => b.skill_name) = jsSetDedup (collectSkills [wMatrix]) ∧
      (emptyBadge 0 "Basic Python" ∈
          (loadBadges "T" (.ok (some [wMatrix])) (.err none)).badges ∧
        (emptyBadge 0 "Basic Python").studentsEarned = [] ∧
        (emptyBadge 0 "Basic Python").studentsNotEarned = []) := by
  have h := C5_analytics_failure_degrades "T" wMatrix [] none
  exact ⟨h.1, h.2.1,
    ⟨by decide, (h.2.2 _ (by decide)).1, (h.2.2 _ (by decide)).2⟩⟩

/-- C7: the collected skill names are deduplicated in first-seen order, the
badges carry exactly that list of skills in order, and the badge at position
`i` has the synthetic id `badge-i`. -/
theorem C7_identity_from_position (ts : String) (m : SkillMatrix)
    (rest : List SkillMatrix) (oa : Option Analytics) :
    jsSetDedup (collectSkills (m :: rest)) =
        firstSeenDedup (collectSkills (m :: rest)) ∧
      ((loadBadges ts (.ok (some (m :: rest))) (.ok oa)).badges.map
          fun b => b.skill_name) = jsSetDedup (collectSkills (m :: rest)) ∧
      ((loadBadges ts (.ok (some (m :: rest))) (.ok oa)).badges.map
          fun b => b.id) =
        (List.range (jsSetDedup (collectSkills (m :: rest))).length).map
          fun i => "badge-" ++ toString i := by
  refine ⟨jsSetDedup_eq_firstSeenDedup _, ?_, ?_⟩
  · simp only [loadBadges]
    exact skillNames_of_enumMap (mkSkillBadge ts oa) _ fun i s => rfl
  · simp only [loadBadges]
    exact ids_of_enumMap (mkSkillBadge ts oa) _ fun i s => rfl

/-- C10: in every derived badge, earned records have the earned flag set, a
defined timestamp, and progress equal to the recorded skill score; not-earned
records have the flag unset and no timestamp; a student with no entry for the
skill lands in `notEarned` with progress and skill score 0. -/
theorem C10_partition_record_invariants (ts : String) (m : SkillMatrix)
    (rest : List SkillMatrix) (oa : Option Analytics) :
    ∀ b ∈ (loadBadges ts (.ok (some (m :: rest))) (.ok oa)).badges,
      (∀ s ∈ b.studentsEarned,
          s.earned = true ∧ s.earnedAt.isSome = true ∧
            some s.progress = s.skillScore) ∧
        (∀ s ∈ b.studentsNotEarned,
          s.earned = false ∧ s.earnedAt = none ∧
            some s.progress = s.skillScore) ∧
        (∀ st ∈ analyticsStudents oa,
          lookupSkill st.skillBreakdown b.skill_name = none →
            mkStudentStatus ts b.skill_name st ∈ b.studentsNotEarned ∧
              (mkStudentStatus ts b.skill_name st).progress = 0 ∧
              (mkStudentStatus ts b.skill_name st).skillScore = some 0) := by
  intro b hb
  simp only [loadBadges, List.mem_map] at hb
  obtain ⟨p, hp, rfl⟩ := hb
  simp only [skillName_mkSkillBadge]
  refine ⟨?_, ?_, ?_⟩
  · intro s hs
    rw [studentsEarned_mkSkillBadge, List.mem_map] at hs
    obtain ⟨st, hst, rfl⟩ := hs
    rw [List.mem_filter] at hst
    have he : (mkStudentStatus ts p.2 st).earned = true := by
      rw [earned_mkStudentStatus]
      exact hst.2
    refine ⟨he, ?_, progress_mkStudentStatus ts p.2 st⟩
    rw [earnedAt_mkStudentStatus, he]
    rfl
  · intro s hs
    rw [studentsNotEarned_mkSkillBadge, List.mem_map] at hs
    obtain ⟨st, hst, rfl⟩ := hs
    rw [List.mem_filter] at hst
    have he : (mkStudentStatus ts p.2 st).earned = false := by
      rw [earned_mkStudentStatus]
      simpa using hst.2
    refine ⟨he, ?_, progress_mkStudentStatus ts p.2 st⟩
    rw [earnedAt_mkStudentStatus, he]
    rfl
  · intro st hst hnone
    have hsc : scoreOf st p.2 = 0 := by rw [scoreOf, hnone]
    refine ⟨?_, ?_, ?_⟩
    · rw [studentsNotEarned_mkSkillBadge, List.mem_map]
      refine ⟨st, ?_, rfl⟩
      rw [List.mem_filter]
      refine ⟨hst, ?_⟩
      rw [hsc]
      rfl
    · simp [mkStudentStatus, hnone]
    · simp [mkStudentStatus, hnone]

/-- Witness for C10: Alice is in the earned partition with her flags set,
Bob in the not-earned one, and Carol (no breakdown) lands in not-earned
with progress 0. -/
theorem C10_partition_record_invariants_witness :
    wBadge ∈ (loadBadges "T" (.ok (some [wMatrix])) (.ok wAnalytics)).badges ∧
      (mkStudentStatus "T" "Basic Python" wAlice ∈ wBadge.studentsEarned ∧
        (mkStudentStatus "T" "Basic Python" wAlice).earned = true ∧
        (mkStudentStatus "T" "Basic Python" wAlice).earnedAt.isSome = true ∧
        some (mkStudentStatus "T" "Basic Python" wAlice).progress =
          (mkStudentStatus "T" "Basic Python" wAlice).skillScore) ∧
      (mkStudentStatus "T" "Basic Python" wBob ∈ wBadge.studentsNotEarned ∧
        (mkStudentStatus "T" "Basic Python" wBob).earned = false ∧
        (mkStudentStatus "T" "Basic Python" wBob).earnedAt = none) ∧
      (wCarol ∈ analyticsStudents wAnalytics ∧
        lookupSkill wCarol.skillBreakdown wBadge.skill_name = none ∧
        mkStudentStatus "T" wBadge.skill_name wCarol ∈
          wBadge.studentsNotEarned ∧
        (mkStudentStatus "T" wBadge.skill_name wCarol).progress = 0 ∧
        (mkStudentStatus "T" wBadge.skill_name wCarol).skillScore = some 0) :=
  by
  have h := C10_partition_record_invariants "T" wMatrix [] wAnalytics wBadge
    (by decide)
  have hA := h.1 (mkStudentStatus "T" "Basic Python" wAlice) (by decide)
  have hB := h.2.1 (mkStudentStatus "T" "Basic Python" wBob) (by decide)
  have hC := h.2.2 wCarol (by decide) (by decide)
  exact ⟨by decide, ⟨by decide, hA.1, hA.2.1, hA.2.2⟩,
    ⟨by decide, hB.1, hB.2.1⟩, ⟨by decide, by decide, hC.1, hC.2.1, hC.2.2⟩⟩
